import Mathlib

/-!
Verification of the openpitrix API layer of kubesphere
(`pkg/kapis/openpitrix/v1/register.go`) and of the version-workflow /
attachment contracts its spec describes.

The route table built by `AddToContainer` is embedded as a Lean list of
`Route` records, one per `webservice.Route(...)` call, in source order,
keeping each route's verb, path, handler, deprecation flag, doc string,
parameter declarations (with data format / default value / required flag)
and declared request/response body types.  OpenAPI tag metadata and the
`Consumes` MIME lists are the only builder calls not carried over, since no
stated property mentions them.
-/

/-- HTTP verbs used by the web service builder. -/
inductive Verb
  | GET
  | POST
  | DELETE
  | PATCH
deriving DecidableEq, Repr

/-- The handler methods of `openpitrixHandler` that routes dispatch to. -/
inductive Handler
  | CreateRepo
  | DeleteRepo
  | ListRepos
  | DescribeRepo
  | ModifyRepo
  | ListRepoEvents
  | DoRepoAction
  | DoAppAction
  | CreateApp
  | ModifyApp
  | ListApps
  | DescribeApp
  | DeleteApp
  | CreateAppVersion
  | DeleteAppVersion
  | DescribeAppVersion
  | ListAppVersions
  | GetAppVersionPackage
  | ModifyAppVersion
  | GetAppVersionFiles
  | ListAppVersionAudits
  | DoAppVersionAction
  | ListApplications
  | ModifyApplication
  | UpgradeApplication
  | CreateApplication
  | DescribeApplication
  | DeleteApplication
  | CreateCategory
  | DeleteCategory
  | ModifyCategory
  | DescribeCategory
  | ListCategories
  | ListReviews
  | DescribeAttachment
  | CreateAttachment
  | DeleteAttachments
deriving DecidableEq, Repr

/-- Response body types named in `Returns(http.StatusOK, api.StatusOK, _)`. -/
inductive RespType
  | CreateRepoResponse
  | ErrorBody
  | PageableResponse
  | Repo
  | AppVersion
  | CreateAppResponse
  | CreateAppVersionResponse
  | GetAppVersionPackageResponse
  | GetAppVersionPackageFilesResponse
  | AppVersionAudit
  | Application
  | Category
  | CreateCategoryResponse
  | AppVersionReview
  | Attachment
deriving DecidableEq, Repr

/-- Request body types named in `Reads(_)`. -/
inductive ReqType
  | CreateRepoRequest
  | ModifyRepoRequest
  | RepoActionRequest
  | CreateAppRequest
  | ModifyAppVersionRequest
  | CreateAppVersionRequest
  | ModifyClusterAttributesRequest
  | UpgradeClusterRequest
  | CreateClusterRequest
  | CreateCategoryRequest
  | ModifyCategoryRequest
deriving DecidableEq, Repr

/-- Whether a parameter was declared with `PathParameter` or `QueryParameter`. -/
inductive ParamKind
  | path
  | query
deriving DecidableEq, Repr

/-- One `Param(...)` declaration on a route: its kind, name, description and
the optional `DataFormat`, `DefaultValue` and `Required` builder calls. -/
structure Param where
  kind : ParamKind
  name : String
  descr : String
  dataFormat : Option String
  defaultValue : Option String
  required : Option Bool
deriving DecidableEq, Repr

/-- One `webservice.Route(...)` registration. -/
structure Route where
  verb : Verb
  path : String
  handler : Handler
  deprecated : Bool
  doc : String
  params : List Param
  returns : RespType
  reads : Option ReqType
deriving DecidableEq, Repr

/-- Mirrors `params.ConditionsParam` from `pkg/server/params`. -/
def ConditionsParam : String := "conditions"

/-- Mirrors `params.PagingParam` from `pkg/server/params`. -/
def PagingParam : String := "paging"

/-- Mirrors `params.ReverseParam` from `pkg/server/params`. -/
def ReverseParam : String := "reverse"

/-- Mirrors `params.OrderByParam` from `pkg/server/params`. -/
def OrderByParam : String := "orderBy"

/-- A query parameter declared with only a description. -/
def qparam (n d : String) : Param :=
  ⟨.query, n, d, none, none, none⟩

/-- A path parameter declared with only a description. -/
def pparam (n d : String) : Param :=
  ⟨.path, n, d, none, none, none⟩

/-- A path parameter additionally marked `Required(true)`. -/
def pparamReq (n d : String) : Param :=
  ⟨.path, n, d, none, none, some true⟩

/-- A query parameter with `Required(false)` and a `DataFormat`. -/
def qparamFmt (n d fmt : String) : Param :=
  ⟨.query, n, d, some fmt, none, some false⟩

/-- A query parameter with `Required(false)`, a `DataFormat` and a
`DefaultValue`. -/
def qparamFmtDef (n d fmt dv : String) : Param :=
  ⟨.query, n, d, some fmt, some dv, some false⟩

/-- The conditions-parameter description used on most list routes. -/
def condDoc : String :=
  "query conditions,connect multiple conditions with commas, equal symbol for exact query, wave symbol for fuzzy query e.g. name~a"

/-- The conditions-parameter description used on the application list routes
(same wording, with a space after the first comma). -/
def condDocApp : String :=
  "query conditions, connect multiple conditions with commas, equal symbol for exact query, wave symbol for fuzzy query e.g. name~a"

/-- The paging-parameter description. -/
def pagingDoc : String := "paging query, e.g. limit=100,page=1"

/-- The standard conditions query parameter of list routes. -/
def stdConditions : Param := qparamFmt ConditionsParam condDoc "key=%s,key~%s"

/-- The standard paging query parameter of list routes. -/
def stdPaging : Param :=
  qparamFmtDef PagingParam pagingDoc "limit=%d,page=%d" "limit=10,page=1"

/-- The reverse sort query parameter. -/
def stdReverse : Param := qparam ReverseParam "sort parameters, e.g. reverse=true"

/-- The orderBy sort query parameter. -/
def stdOrderBy : Param := qparam OrderByParam "sort parameters, e.g. orderBy=createTime"

/-- The conditions query parameter as declared on application list routes:
data format `key=value,key~value` and an empty default value. -/
def appConditions : Param :=
  qparamFmtDef ConditionsParam condDocApp "key=value,key~value" ""

/-- Holds when `p` is a prefix of `s` (structural, so it evaluates inside
the kernel, unlike `String.startsWith`). -/
def strStartsWith (s p : String) : Bool :=
  p.data.isPrefixOf s.data

/-- The opening brace character of a `{name}` path segment. -/
def braceOpen : Char := '\x7b'

/-- The closing brace character of a `{name}` path segment. -/
def braceClose : Char := '\x7d'

/-- Scans a path, collecting the names appearing between braces.  `inParam`
says whether the scan is currently inside a `{...}` segment and `cur` holds
the characters of that segment read so far, in reverse. -/
def paramNamesAux (inParam : Bool) (cur : List Char) : List Char → List String
  | [] => []
  | c :: cs =>
    if inParam then
      if c = braceClose then String.mk cur.reverse :: paramNamesAux false [] cs
      else paramNamesAux true (c :: cur) cs
    else
      if c = braceOpen then paramNamesAux true [] cs
      else paramNamesAux false cur cs

/-- The path-parameter names of a route path: the names written between
braces, in order of appearance. -/
def pathParams (p : String) : List String :=
  paramNamesAux false [] p.data

/-- The route table registered by `AddToContainer`, one entry per
`webservice.Route(...)` call, in source order. -/
def openpitrixRoutes : List Route :=
  [ ⟨.POST, "/repos", .CreateRepo, false,
      "Create a global repository, which is used to store package of app",
      [qparam "validate" "Validate repository"], .CreateRepoResponse, some .CreateRepoRequest⟩,
    ⟨.POST, "/workspaces/{workspace}/repos", .CreateRepo, false,
      "Create repository in the specified workspace, which is used to store package of app",
      [qparam "validate" "Validate repository"], .CreateRepoResponse, some .CreateRepoRequest⟩,
    ⟨.DELETE, "/repos/{repo}", .DeleteRepo, false,
      "Delete the specified global repository",
      [pparam "repo" "repo id"], .ErrorBody, none⟩,
    ⟨.DELETE, "/workspaces/{workspace}/repos/{repo}", .DeleteRepo, false,
      "Delete the specified repository in the specified workspace",
      [pparam "repo" "repo id"], .ErrorBody, none⟩,
    ⟨.GET, "/repos", .ListRepos, false,
      "List global repositories",
      [stdConditions, stdPaging, stdReverse, stdOrderBy], .PageableResponse, none⟩,
    ⟨.GET, "/workspaces/{workspace}/repos", .ListRepos, false,
      "List repositories in the specified workspace",
      [stdConditions, stdPaging, stdReverse, stdOrderBy], .PageableResponse, none⟩,
    ⟨.GET, "/repos/{repo}", .DescribeRepo, false,
      "Describe the specified global repository",
      [pparam "repo" "repo id"], .Repo, none⟩,
    ⟨.GET, "/workspaces/{workspace}/repos/{repo}", .DescribeRepo, false,
      "Describe the specified repository in the specified workspace",
      [pparam "repo" "repo id"], .Repo, none⟩,
    ⟨.PATCH, "/workspaces/{workspace}/repos/{repo}", .ModifyRepo, false,
      "Patch the specified repository in the specified workspace",
      [pparam "repo" "repo id"], .ErrorBody, some .ModifyRepoRequest⟩,
    ⟨.PATCH, "/repos/{repo}", .ModifyRepo, false,
      "Patch the specified global repository",
      [pparam "repo" "repo id"], .ErrorBody, some .ModifyRepoRequest⟩,
    ⟨.GET, "/workspaces/{workspace}/repos/{repo}/events", .ListRepoEvents, false,
      "Get repository events",
      [pparam "repo" "repo id"], .PageableResponse, none⟩,
    ⟨.GET, "/repos/{repo}/events", .ListRepoEvents, false,
      "Get global repository events",
      [pparam "repo" "repo id"], .PageableResponse, none⟩,
    ⟨.POST, "/repos/{repo}/action", .DoRepoAction, true,
      "Start index repository event",
      [pparam "repo" "repo id"], .ErrorBody, some .RepoActionRequest⟩,
    ⟨.POST, "/workspaces/{workspace}/repos/{repo}/action", .DoRepoAction, false,
      "Start index repository event",
      [pparam "repo" "repo id"], .ErrorBody, some .RepoActionRequest⟩,
    ⟨.POST, "/apps/{app}/action", .DoAppAction, true,
      "Perform recover or suspend operation on app",
      [pparam "version" "app template version id", pparam "app" "app template id"],
      .ErrorBody, none⟩,
    ⟨.POST, "/workspaces/{workspace}/apps/{app}/action", .DoAppAction, false,
      "Perform recover or suspend operation on app",
      [pparam "version" "app template version id", pparam "app" "app template id"],
      .ErrorBody, none⟩,
    ⟨.POST, "/apps", .CreateApp, true,
      "Create a new app template",
      [pparam "app" "app template id"], .CreateAppResponse, some .CreateAppRequest⟩,
    ⟨.POST, "/workspaces/{workspace}/apps", .CreateApp, false,
      "Create a new app template",
      [pparam "app" "app template id"], .CreateAppResponse, some .CreateAppRequest⟩,
    ⟨.PATCH, "/apps/{app}", .ModifyApp, true,
      "Patch the specified app template",
      [pparam "app" "app template id"], .ErrorBody, some .ModifyAppVersionRequest⟩,
    ⟨.PATCH, "/workspaces/{workspace}/apps/{app}", .ModifyApp, false,
      "Patch the specified app template",
      [pparam "app" "app template id"], .ErrorBody, some .ModifyAppVersionRequest⟩,
    ⟨.GET, "/apps", .ListApps, true,
      "List app templates",
      [stdConditions, stdPaging, stdReverse, stdOrderBy], .PageableResponse, none⟩,
    ⟨.GET, "/workspaces/{workspace}/apps", .ListApps, false,
      "List app templates in the specified workspace.",
      [pparam "workspace" "workspace name",
       stdConditions, stdPaging, stdReverse, stdOrderBy], .PageableResponse, none⟩,
    ⟨.GET, "/workspaces/{workspace}/apps/{app}", .DescribeApp, false,
      "Describe the specified app template",
      [pparam "app" "app template id"], .AppVersion, none⟩,
    ⟨.GET, "/apps/{app}", .DescribeApp, true,
      "Describe the specified app template",
      [pparam "app" "app template id"], .AppVersion, none⟩,
    ⟨.DELETE, "/apps/{app}", .DeleteApp, true,
      "Delete the specified app template",
      [pparam "app" "app template id"], .ErrorBody, none⟩,
    ⟨.DELETE, "/workspaces/{workspace}/apps/{app}", .DeleteApp, false,
      "Delete the specified app template",
      [pparam "app" "app template id"], .ErrorBody, none⟩,
    ⟨.POST, "/apps/{app}/versions", .CreateAppVersion, true,
      "Create a new app template version",
      [qparam "validate" "Validate format of package(pack by op tool)",
       pparam "app" "app template id"],
      .CreateAppVersionResponse, some .CreateAppVersionRequest⟩,
    ⟨.POST, "/workspaces/{workspace}/apps/{app}/versions", .CreateAppVersion, false,
      "Create a new app template version",
      [qparam "validate" "Validate format of package(pack by op tool)",
       pparam "app" "app template id"],
      .CreateAppVersionResponse, some .CreateAppVersionRequest⟩,
    ⟨.DELETE, "/apps/{app}/versions/{version}", .DeleteAppVersion, true,
      "Delete the specified app template version",
      [pparam "version" "app template version id", pparam "app" "app template id"],
      .ErrorBody, none⟩,
    ⟨.DELETE, "/workspaces/{workspace}/apps/{app}/versions/{version}", .DeleteAppVersion, false,
      "Delete the specified app template version",
      [pparam "version" "app template version id", pparam "app" "app template id"],
      .ErrorBody, none⟩,
    ⟨.GET, "/apps/{app}/versions/{version}", .DescribeAppVersion, true,
      "Describe the specified app template version",
      [pparam "version" "app template version id", pparam "app" "app template id"],
      .AppVersion, none⟩,
    ⟨.GET, "/apps/{app}/versions", .ListAppVersions, true,
      "Get active versions of app, can filter with these fields(version_id, app_id, name, owner, description, package_name, status, type), default return all active app versions",
      [stdConditions, stdPaging, pparam "app" "app template id", stdReverse, stdOrderBy],
      .PageableResponse, none⟩,
    ⟨.GET, "/workspaces/{workspace}/apps/{app}/versions/{version}", .DescribeAppVersion, false,
      "Describe the specified app template version",
      [pparam "version" "app template version id", pparam "app" "app template id"],
      .AppVersion, none⟩,
    ⟨.GET, "/workspaces/{workspace}/apps/{app}/versions", .ListAppVersions, false,
      "Get active versions of app, can filter with these fields(version_id, app_id, name, owner, description, package_name, status, type), default return all active app versions",
      [stdConditions, stdPaging, pparam "app" "app template id", stdReverse, stdOrderBy],
      .PageableResponse, none⟩,
    ⟨.GET, "/apps/{app}/versions/{version}/package", .GetAppVersionPackage, false,
      "Get packages of version-specific app",
      [pparam "version" "app template version id", pparam "app" "app template id"],
      .GetAppVersionPackageResponse, none⟩,
    ⟨.PATCH, "/apps/{app}/versions/{version}", .ModifyAppVersion, true,
      "Patch the specified app template version",
      [pparam "version" "app template version id", pparam "app" "app template id"],
      .ErrorBody, some .ModifyAppVersionRequest⟩,
    ⟨.PATCH, "/workspaces/{workspace}/apps/{app}/versions/{version}", .ModifyAppVersion, false,
      "Patch the specified app template version",
      [pparam "version" "app template version id", pparam "app" "app template id"],
      .ErrorBody, some .ModifyAppVersionRequest⟩,
    ⟨.GET, "/apps/{app}/versions/{version}/files", .GetAppVersionFiles, true,
      "Get app template package files",
      [pparam "version" "app template version id", pparam "app" "app template id"],
      .GetAppVersionPackageFilesResponse, none⟩,
    ⟨.GET, "/apps/{app}/audits", .ListAppVersionAudits, true,
      "List audits information of the specific app template",
      [pparam "app" "app template id"], .AppVersionAudit, none⟩,
    ⟨.GET, "/workspaces/{workspace}/apps/{app}/versions/{version}/audits", .ListAppVersionAudits, false,
      "List audits information of version-specific app template",
      [pparam "version" "app template version id", pparam "app" "app template id"],
      .AppVersionAudit, none⟩,
    ⟨.GET, "/apps/{app}/versions/{version}/audits", .ListAppVersionAudits, true,
      "List audits information of version-specific app template",
      [pparam "version" "app template version id", pparam "app" "app template id"],
      .AppVersionAudit, none⟩,
    ⟨.POST, "/apps/{app}/versions/{version}/action", .DoAppVersionAction, true,
      "Perform submit or other operations on app",
      [pparam "version" "app template version id", pparam "app" "app template id"],
      .ErrorBody, none⟩,
    ⟨.POST, "/workspaces/{workspace}/apps/{app}/versions/{version}/action", .DoAppVersionAction, false,
      "Perform submit or other operations on app",
      [pparam "version" "app template version id", pparam "app" "app template id"],
      .ErrorBody, none⟩,
    ⟨.GET, "/applications", .ListApplications, true,
      "List all applications",
      [appConditions, stdPaging], .PageableResponse, none⟩,
    ⟨.GET, "/workspaces/{workspace}/namespaces/{namespace}/applications", .ListApplications, false,
      "List all applications within the specified namespace",
      [appConditions, pparamReq "namespace" "the name of the project.", stdPaging],
      .PageableResponse, none⟩,
    ⟨.GET, "/workspaces/{workspace}/applications", .ListApplications, false,
      "List all applications within the specified workspace",
      [appConditions, pparamReq "workspace" "the workspace of the project.", stdPaging],
      .PageableResponse, none⟩,
    ⟨.GET, "/workspaces/{workspace}/clusters/{cluster}/applications", .ListApplications, false,
      "List all applications within the specified cluster",
      [appConditions, pparamReq "workspace" "the workspace of the project.",
       pparamReq "cluster" "the cluster of the project.", stdPaging],
      .PageableResponse, none⟩,
    ⟨.GET, "/clusters/{cluster}/applications", .ListApplications, false,
      "List all applications within the specified cluster",
      [appConditions, pparamReq "cluster" "the cluster of the project.", stdPaging],
      .PageableResponse, none⟩,
    ⟨.GET, "/workspaces/{workspace}/clusters/{cluster}/namespaces/{namespace}/applications", .ListApplications, false,
      "List all applications within the specified namespace",
      [appConditions, pparamReq "workspace" "the workspace of the project.",
       pparamReq "cluster" "the name of the cluster.",
       pparamReq "namespace" "the name of the project", stdPaging],
      .PageableResponse, none⟩,
    ⟨.PATCH, "/workspaces/{workspace}/clusters/{cluster}/namespaces/{namespace}/applications/{application}", .ModifyApplication, false,
      "Modify application",
      [pparamReq "cluster" "the name of the cluster.",
       pparamReq "namespace" "the name of the project",
       pparamReq "application" "the id of the application"],
      .ErrorBody, some .ModifyClusterAttributesRequest⟩,
    ⟨.PATCH, "/workspaces/{workspace}/namespaces/{namespace}/applications/{application}", .ModifyApplication, false,
      "Modify application",
      [pparamReq "namespace" "the name of the project",
       pparamReq "application" "the id of the application"],
      .ErrorBody, some .ModifyClusterAttributesRequest⟩,
    ⟨.POST, "/workspaces/{workspace}/clusters/{cluster}/namespaces/{namespace}/applications/{application}", .UpgradeApplication, false,
      "Upgrade application",
      [pparamReq "cluster" "the name of the cluster.",
       pparamReq "namespace" "the name of the project",
       pparamReq "application" "the id of the application"],
      .ErrorBody, some .UpgradeClusterRequest⟩,
    ⟨.POST, "/workspaces/{workspace}/namespaces/{namespace}/applications/{application}", .UpgradeApplication, false,
      "Upgrade application",
      [pparamReq "namespace" "the name of the project",
       pparamReq "application" "the id of the application"],
      .ErrorBody, some .UpgradeClusterRequest⟩,
    ⟨.POST, "/workspaces/{workspace}/clusters/{cluster}/namespaces/{namespace}/applications", .CreateApplication, false,
      "Deploy a new application",
      [pparamReq "cluster" "the name of the cluster.",
       pparamReq "namespace" "the name of the project"],
      .ErrorBody, some .CreateClusterRequest⟩,
    ⟨.POST, "/workspaces/{workspace}/namespaces/{namespace}/applications", .CreateApplication, false,
      "Deploy a new application",
      [pparamReq "namespace" "the name of the project"],
      .ErrorBody, some .CreateClusterRequest⟩,
    ⟨.GET, "/workspaces/{workspace}/clusters/{cluster}/namespaces/{namespace}/applications/{application}", .DescribeApplication, false,
      "Describe the specified application of the namespace",
      [pparamReq "cluster" "the name of the cluster.",
       pparamReq "namespace" "the name of the project",
       pparamReq "application" "the id of the application"],
      .Application, none⟩,
    ⟨.GET, "/workspaces/{workspace}/namespaces/{namespace}/applications/{application}", .DescribeApplication, false,
      "Describe the specified application of the namespace",
      [pparamReq "namespace" "the name of the project",
       pparamReq "application" "the id of the application"],
      .Application, none⟩,
    ⟨.DELETE, "/workspaces/{workspace}/namespaces/{namespace}/applications/{application}", .DeleteApplication, false,
      "Delete the specified application",
      [pparamReq "namespace" "the name of the project",
       pparamReq "workspace" "the workspace of the project",
       pparamReq "application" "the id of the application"],
      .ErrorBody, none⟩,
    ⟨.DELETE, "/workspaces/{workspace}/clusters/{cluster}/namespaces/{namespace}/applications/{application}", .DeleteApplication, false,
      "Delete the specified application",
      [pparamReq "cluster" "the name of the cluster.",
       pparamReq "namespace" "the name of the project",
       pparamReq "application" "the id of the application"],
      .ErrorBody, none⟩,
    ⟨.DELETE, "/workspaces/{workspace}/clusters/{cluster}/applications/{application}", .DeleteApplication, false,
      "Delete the specified application",
      [pparamReq "cluster" "the name of the cluster.",
       pparamReq "workspace" "the workspaces of the project",
       pparamReq "application" "the id of the application"],
      .ErrorBody, none⟩,
    ⟨.POST, "/categories", .CreateCategory, false,
      "Create app template category",
      [pparam "app" "app template id"], .CreateCategoryResponse, some .CreateCategoryRequest⟩,
    ⟨.DELETE, "/categories/{category}", .DeleteCategory, false,
      "Delete the specified category",
      [pparam "category" "category id"], .ErrorBody, none⟩,
    ⟨.PATCH, "/categories/{category}", .ModifyCategory, false,
      "Patch the specified category",
      [pparam "category" "category id"], .ErrorBody, some .ModifyCategoryRequest⟩,
    ⟨.GET, "/categories/{category}", .DescribeCategory, false,
      "Describe the specified category",
      [pparam "category" "category id"], .Category, none⟩,
    ⟨.GET, "/categories", .ListCategories, false,
      "List categories",
      [stdConditions, stdPaging, stdReverse, stdOrderBy], .PageableResponse, none⟩,
    ⟨.GET, "/reviews", .ListReviews, false,
      "Get reviews of version-specific app",
      [stdConditions, stdPaging], .AppVersionReview, none⟩,
    ⟨.GET, "/attachments/{attachment}", .DescribeAttachment, false,
      "Get attachment by attachment id",
      [pparam "attachment" "attachment id"], .Attachment, none⟩,
    ⟨.POST, "/attachments", .CreateAttachment, false,
      "Create an attachment",
      [], .Attachment, none⟩,
    ⟨.DELETE, "/attachments/{attachment}", .DeleteAttachments, false,
      "Delete one or multiple attachments, whose ids are separated by comma",
      [pparam "attachment" "attachment id"], .ErrorBody, none⟩ ]

/-- A web service: a root path together with its registered routes
(`runtime.NewWebService(GroupVersion)` plus the `webservice.Route` calls). -/
structure WebService where
  groupName : String
  version : String
  routes : List Route
deriving DecidableEq, Repr

/-- A restful container: the list of web services added to it. -/
structure Container where
  webServices : List WebService
deriving DecidableEq, Repr

/-- The openpitrix web service built by `AddToContainer`: group
`openpitrix.io`, version `v1`, carrying the full route table. -/
def openpitrixWebService : WebService :=
  ⟨"openpitrix.io", "v1", openpitrixRoutes⟩

/-- Embeds `AddToContainer`: it builds the web service, registers every
route on it, adds it to the container with `c.Add(webservice)` and returns
`nil`.  The returned `Option` is the Go `error` result (`none` = `nil`). -/
def AddToContainer (c : Container) : Container × Option String :=
  ({ webServices := c.webServices ++ [openpitrixWebService] }, none)

/-- A route is workspace-scoped when its path lives under
`/workspaces/{workspace}`. -/
def isWorkspaceScoped (r : Route) : Bool :=
  strStartsWith r.path "/workspaces/"

/-- The routes dispatching to a given handler. -/
def routesTo (h : Handler) : List Route :=
  openpitrixRoutes.filter (fun r => r.handler == h)

/-- Holds when some registered route outside the workspace scope dispatches
to `h` (the global rendering of the operation). -/
def hasGlobalRoute (h : Handler) : Bool :=
  openpitrixRoutes.any (fun r => r.handler == h && !isWorkspaceScoped r)

/-- Holds when some registered workspace-scoped route dispatches to `h`. -/
def hasWorkspaceRoute (h : Handler) : Bool :=
  openpitrixRoutes.any (fun r => r.handler == h && isWorkspaceScoped r)

/-- The path prefix that turns a global route path into its
workspace-scoped counterpart. -/
def wsRoot : String := "/workspaces/{workspace}"

/-- The handlers of list operations (the §6 operations named `list`,
`list-events`, `list-audits`, `list-versions` and the review listing). -/
def listHandlers : List Handler :=
  [.ListRepos, .ListRepoEvents, .ListApps, .ListAppVersions,
   .ListAppVersionAudits, .ListApplications, .ListCategories, .ListReviews]

/-- Whether a route belongs to a list operation. -/
def isListRoute (r : Route) : Bool :=
  listHandlers.contains r.handler

/-- The scope subset `{workspace?, cluster?, namespace?}` rendered as the
path-parameter list it induces, in the canonical order the paths use. -/
def scopeSubset (w c n : Bool) : List String :=
  (if w then ["workspace"] else []) ++ (if c then ["cluster"] else []) ++
    (if n then ["namespace"] else [])

/-- Holds when a registered `ListApplications` route has exactly the given
scope subset as its path parameters. -/
def hasListApplicationsScope (w c n : Bool) : Bool :=
  openpitrixRoutes.any fun r =>
    r.handler == Handler.ListApplications && pathParams r.path == scopeSubset w c n

/-- Modelled from the spec: the workflow states of an AppVersion (§4.2);
the Version Workflow Engine itself is not part of the visible routing
layer. -/
inductive VStatus
  | draft
  | submitted
  | passed
  | rejected
  | active
  | suspended
  | deleted
deriving DecidableEq, Repr

/-- Modelled from the spec: the workflow actions accepted by
`Transition` (§4.2). -/
inductive VAction
  | submit
  | pass
  | reject
  | release
  | suspend
  | recover
  | delete
deriving DecidableEq, Repr

/-- Modelled from the spec: the error taxonomy of §7. -/
inductive OpError
  | NotFound
  | AlreadyExists
  | InvalidState
  | Conflict
  | ValidationFailed
  | Unauthorized
  | Internal
deriving DecidableEq, Repr

/-- Modelled from the spec: §4.2's transition table.  Valid edges are
`draft → submitted` via submit, `submitted → passed`/`rejected` via
pass/reject, `passed → active` via release, `active ⇄ suspended` via
suspend/recover, and any of draft, submitted, passed, active, suspended
`→ deleted` via delete (`rejected` and `deleted` are terminal).  Every
other (state, action) pair is invalid (`none`). -/
def transitionTable : VStatus → VAction → Option VStatus
  | .draft, .submit => some .submitted
  | .submitted, .pass => some .passed
  | .submitted, .reject => some .rejected
  | .passed, .release => some .active
  | .active, .suspend => some .suspended
  | .suspended, .recover => some .active
  | .draft, .delete => some .deleted
  | .submitted, .delete => some .deleted
  | .passed, .delete => some .deleted
  | .active, .delete => some .deleted
  | .suspended, .delete => some .deleted
  | _, _ => none

/-- Modelled from the spec: an AppVersion record of the Catalog Store
(§3), keeping the fields the workflow reads. -/
structure AppVersionRec where
  id : Nat
  appTemplateId : Nat
  versionString : String
  status : VStatus
deriving DecidableEq, Repr

/-- Modelled from the spec: an AuditRecord (§3), appended on every
successful transition. -/
structure AuditRecord where
  versionId : Nat
  fromStatus : VStatus
  toStatus : VStatus
  actor : String
  message : String
  timestamp : Nat
deriving DecidableEq, Repr

/-- Modelled from the spec: the status of a deployed Application (§3,
with the `deleted` end state §4.2's delete rule mentions). -/
inductive AppStatus
  | creating
  | active
  | upgrading
  | suspended
  | deleting
  | failed
  | deleted
deriving DecidableEq, Repr

/-- Modelled from the spec: the fields of an Application record that the
workflow's delete rule consults. -/
structure ApplicationRec where
  id : Nat
  appVersionId : Nat
  status : AppStatus
deriving DecidableEq, Repr

/-- Modelled from the spec: the slice of the Catalog Store the Version
Workflow Engine touches, together with the audit Event Log and a clock for
timestamps. -/
structure CatalogStore where
  versions : List AppVersionRec
  audits : List AuditRecord
  apps : List ApplicationRec
  now : Nat
deriving DecidableEq, Repr

/-- Looks an AppVersion up by id. -/
def findVersion (st : CatalogStore) (vid : Nat) : Option AppVersionRec :=
  st.versions.find? (fun v => v.id == vid)

/-- Modelled from the spec: whether some Application still references the
version and is not itself deleting/deleted (§4.2's delete rule). -/
def hasLiveDependents (st : CatalogStore) (vid : Nat) : Bool :=
  st.apps.any fun a =>
    a.appVersionId == vid &&
      !(a.status == AppStatus.deleting || a.status == AppStatus.deleted)

/-- Modelled from the spec: `Transition(versionId, action, actor, message)
-> AuditRecord | error` (§4.2).  It validates the action against the
current status via `transitionTable` (failing with `InvalidState`
otherwise), rejects a delete that live Applications still depend on with
`Conflict`, and on success commits the new status and appends the
AuditRecord in one step, returning the updated store and the record. -/
def Transition (st : CatalogStore) (vid : Nat) (act : VAction)
    (actor message : String) : Except OpError (CatalogStore × AuditRecord) :=
  match findVersion st vid with
  | none => .error .NotFound
  | some v =>
    match transitionTable v.status act with
    | none => .error .InvalidState
    | some t =>
      if act == VAction.delete && hasLiveDependents st vid then
        .error .Conflict
      else
        let ar : AuditRecord := ⟨vid, v.status, t, actor, message, st.now⟩
        .ok ({ st with
                versions := st.versions.map fun w =>
                  if w.id == vid then { w with status := t } else w,
                audits := st.audits ++ [ar] }, ar)

/-- Runs `Transition` transactionally: the caller keeps the old store when
the transition fails, so a failed transition leaves every stored status
unchanged. -/
def TransitionRun (st : CatalogStore) (vid : Nat) (act : VAction)
    (actor message : String) : CatalogStore × Except OpError AuditRecord :=
  match Transition st vid act actor message with
  | .error e => (st, .error e)
  | .ok (st2, ar) => (st2, .ok ar)

/-- Modelled from the spec: a stored attachment of the Attachment Store
(§4.4), with its content bytes. -/
structure Attachment where
  id : String
  content : List Nat
deriving DecidableEq, Repr

/-- Modelled from the spec: the per-id outcome of a batch attachment
delete (§4.4). -/
inductive DeleteOutcome
  | deleted
  | notFound
deriving DecidableEq, Repr

/-- Splits a comma-separated id list, accumulating the characters of the
current id in reverse in `cur` (structural, kernel-evaluable). -/
def splitIdsAux (cur : List Char) : List Char → List String
  | [] => [String.mk cur.reverse]
  | c :: cs =>
    if c = ',' then String.mk cur.reverse :: splitIdsAux [] cs
    else splitIdsAux (c :: cur) cs

/-- Modelled from the spec: the comma-separated id set accepted by the
attachment delete call. -/
def splitIds (s : String) : List String :=
  splitIdsAux [] s.data

/-- Modelled from the spec: `DeleteMany(ids) -> per-id result` (§4.4).
Deletion is best-effort per id: every stored attachment whose id is in the
set is removed, and the caller receives one outcome per requested id
(`deleted` when it was present, `notFound` otherwise). -/
def DeleteAttachments (store : List Attachment) (ids : List String) :
    List Attachment × List (String × DeleteOutcome) :=
  (store.filter (fun a => !(ids.contains a.id)),
   ids.map fun i =>
     (i, if store.any (fun a => a.id == i) then DeleteOutcome.deleted
         else DeleteOutcome.notFound))

/-- Claim C2: every Repository operation named in §6 — create, delete,
list, describe, patch, list-events, trigger-index — is exposed: each of the
seven repository handlers has at least one registered global route and at
least one workspace-scoped route dispatching to it. -/
theorem repo_operations_fully_exposed :
    ([Handler.CreateRepo, Handler.DeleteRepo, Handler.ListRepos,
      Handler.DescribeRepo, Handler.ModifyRepo, Handler.ListRepoEvents,
      Handler.DoRepoAction].all fun h =>
        hasGlobalRoute h && hasWorkspaceRoute h) = true := by decide

/-- Claim C3: whenever a deprecated route and a workspace-scoped route
render the same operation — same verb, and the workspace path is exactly
`/workspaces/{workspace}` prepended to the deprecated path — the two routes
dispatch to the same handler, so they cannot diverge at the routing
layer. -/
theorem deprecated_and_workspace_routes_share_handler :
    (openpitrixRoutes.all fun r =>
      !r.deprecated ||
        (openpitrixRoutes.all fun r2 =>
          !(r2.verb == r.verb && r2.path == wsRoot ++ r.path) ||
            r2.handler == r.handler)) = true := by decide

/-- Counterexample to claim C4: for the scope subset consisting of
namespace alone, no registered route dispatches to `ListApplications` with
exactly the path parameter `namespace`. -/
theorem no_namespace_only_application_list_route :
    (openpitrixRoutes.any fun r =>
      r.handler == Handler.ListApplications &&
        pathParams r.path == scopeSubset false false true) = false := by decide

/-- Claim C4 as amended: `ListApplications` routes exist exactly for the
six scope subsets in which namespace only ever appears together with
workspace — {}, {workspace}, {cluster}, {workspace, cluster},
{workspace, namespace}, {workspace, cluster, namespace} — and are missing
for {namespace} and {cluster, namespace}. -/
theorem application_list_scope_coverage :
    (hasListApplicationsScope false false false = true
      ∧ hasListApplicationsScope true false false = true
      ∧ hasListApplicationsScope false true false = true
      ∧ hasListApplicationsScope true true false = true
      ∧ hasListApplicationsScope true false true = true
      ∧ hasListApplicationsScope true true true = true)
    ∧ (hasListApplicationsScope false false true = false
      ∧ hasListApplicationsScope false true true = false) := by decide

/-- Counterexample to claim C5: the list route at the concrete path
`/repos/{repo}/events` (a list-events operation, handled by
`ListRepoEvents`) declares no paging query parameter at all. -/
theorem repo_events_route_declares_no_paging :
    (openpitrixRoutes.any fun r =>
      r.path == "/repos/{repo}/events" && isListRoute r &&
        (r.params.all fun p => !(p.name == PagingParam))) = true := by decide

/-- Claim C5 as amended: every list route except those of the list-events
and list-audits operations declares a paging query parameter with data
format `limit=%d,page=%d` and default value `limit=10,page=1`; the
`ListRepoEvents` and `ListAppVersionAudits` routes declare no paging
parameter. -/
theorem paging_default_on_paged_list_routes :
    (openpitrixRoutes.all fun r =>
      if isListRoute r then
        if r.handler == Handler.ListRepoEvents ||
            r.handler == Handler.ListAppVersionAudits then
          r.params.all fun p => !(p.name == PagingParam)
        else
          r.params.any fun p =>
            p.name == PagingParam &&
              p.dataFormat == some "limit=%d,page=%d" &&
              p.defaultValue == some "limit=10,page=1"
      else true) = true := by decide

/-- Claim C6: every conditions query parameter declared on a registered
route carries the data format `key=%s,key~%s` or `key=value,key~value`, and
its description is the documented wording — connect multiple conditions
with commas, equal symbol for exact query, wave symbol for fuzzy query —
and at least one list route does declare such a parameter. -/
theorem conditions_param_format_and_doc :
    ((openpitrixRoutes.all fun r =>
        r.params.all fun p =>
          !(p.name == ConditionsParam) ||
            ((p.dataFormat == some "key=%s,key~%s" ||
                p.dataFormat == some "key=value,key~value") &&
              (p.descr == condDoc || p.descr == condDocApp))) = true)
    ∧ ((openpitrixRoutes.any fun r =>
        isListRoute r && r.params.any fun p => p.name == ConditionsParam) = true) := by
  exact ⟨by decide, by decide⟩

/-- Counterexample to claim C7: the list route at the concrete path
`/reviews` does not declare the pageable response type — it declares
`AppVersionReview` instead. -/
theorem reviews_route_not_pageable :
    (openpitrixRoutes.any fun r =>
      r.path == "/reviews" && isListRoute r &&
        !(r.returns == RespType.PageableResponse)) = true := by decide

/-- Claim C7 as amended: every list route declares the pageable
{items, total} response, except the three list-audits routes, which declare
`AppVersionAudit`, and the list-reviews route, which declares
`AppVersionReview`. -/
theorem list_routes_response_types :
    (openpitrixRoutes.all fun r =>
      if isListRoute r then
        if r.handler == Handler.ListAppVersionAudits then
          r.returns == RespType.AppVersionAudit
        else if r.handler == Handler.ListReviews then
          r.returns == RespType.AppVersionReview
        else
          r.returns == RespType.PageableResponse
      else true) = true := by decide

/-- Claim C9: `AddToContainer` never fails — for every container it
registers the openpitrix web service and returns `nil` for its declared
error result. -/
theorem addToContainer_always_succeeds (c : Container) :
    (AddToContainer c).2 = none
    ∧ openpitrixWebService ∈ (AddToContainer c).1.webServices := by
  exact ⟨rfl, by simp [AddToContainer]⟩

/-- Claim C10: the get-version-files operation is exposed only through the
single deprecated non-workspace route `GET
/apps/{app}/versions/{version}/files`; get-version-package has a
non-workspace route but no workspace-scoped one; and every other AppVersion
operation has both a global and a workspace-scoped rendering. -/
theorem version_files_package_lack_workspace_routes :
    ((routesTo Handler.GetAppVersionFiles).map
        (fun r => (r.verb, r.path, r.deprecated))
      = [(Verb.GET, "/apps/{app}/versions/{version}/files", true)])
    ∧ ((openpitrixRoutes.any fun r =>
        r.handler == Handler.GetAppVersionPackage && isWorkspaceScoped r) = false)
    ∧ ((openpitrixRoutes.any fun r =>
        r.handler == Handler.GetAppVersionPackage && !isWorkspaceScoped r) = true)
    ∧ (([Handler.CreateAppVersion, Handler.DeleteAppVersion,
        Handler.DescribeAppVersion, Handler.ListAppVersions,
        Handler.ModifyAppVersion, Handler.DoAppVersionAction,
        Handler.ListAppVersionAudits].all fun h =>
          hasGlobalRoute h && hasWorkspaceRoute h) = true) := by
  exact ⟨by decide, by decide, by decide, by decide⟩

/-- Updating the status of the version that `find?` locates is what a
subsequent `find?` over the updated version list returns. -/
theorem find_update_status (l : List AppVersionRec) (vid : Nat)
    (v : AppVersionRec) (t : VStatus)
    (h : l.find? (fun w => w.id == vid) = some v) :
    (l.map fun w => if w.id == vid then { w with status := t } else w).find?
        (fun w => w.id == vid) = some { v with status := t } := by
  induction l with
  | nil => simp at h
  | cons a l ih =>
    rw [List.map_cons]
    by_cases ha : (a.id == vid) = true
    · have hav : a = v := by simpa [List.find?_cons, ha] using h
      subst hav
      simp [List.find?_cons, ha]
    · simp only [List.find?_cons] at h
      simp only [Bool.not_eq_true] at ha
      simp only [ha] at h
      have hcond : ¬ ((a.id == vid) = true) := by simp [ha]
      rw [if_neg hcond]
      have hstep : List.find? (fun w => w.id == vid)
          (a :: List.map (fun w =>
            if (w.id == vid) = true then { w with status := t } else w) l)
        = List.find? (fun w => w.id == vid)
            (List.map (fun w =>
              if (w.id == vid) = true then { w with status := t } else w) l) :=
        List.find?_cons_of_neg _ hcond
      rw [hstep]
      exact ih h

/-- Claim C1: for every valid (fromState, action) pair of §4.2's workflow
table, `Transition` succeeds, the resulting AuditRecord's `toStatus` is the
table's target state, the stored status becomes that target, and the record
is appended to the audit log; for every invalid pair it fails with
`InvalidState` and the stored AppVersion status is unchanged (the caller
keeps the old store). -/
theorem transition_follows_table (st : CatalogStore) (vid : Nat)
    (v : AppVersionRec) (act : VAction) (actor message : String)
    (hv : findVersion st vid = some v)
    (hdep : hasLiveDependents st vid = false) :
    (∀ t, transitionTable v.status act = some t →
        ∃ st2,
          TransitionRun st vid act actor message =
            (st2, .ok ⟨vid, v.status, t, actor, message, st.now⟩)
          ∧ findVersion st2 vid = some { v with status := t }
          ∧ st2.audits = st.audits ++ [⟨vid, v.status, t, actor, message, st.now⟩])
    ∧ (transitionTable v.status act = none →
        TransitionRun st vid act actor message = (st, .error OpError.InvalidState)) := by
  constructor
  · intro t ht
    have hc : (act == VAction.delete && hasLiveDependents st vid) = false := by
      rw [hdep, Bool.and_false]
    refine ⟨{ st with
        versions := st.versions.map fun w =>
          if w.id == vid then { w with status := t } else w,
        audits := st.audits ++ [⟨vid, v.status, t, actor, message, st.now⟩] },
      ?_, ?_, rfl⟩
    · simp [TransitionRun, Transition, hv, ht, hdep, hc]
    · exact find_update_status st.versions vid v t hv
  · intro ht
    simp [TransitionRun, Transition, hv, ht]

/-- Concrete one-version store used by the C1 witness. -/
def demoStore : CatalogStore :=
  ⟨[⟨1, 1, "0.1.0", VStatus.draft⟩], [], [], 5⟩

/-- Witness for claim C1: in a store holding version 1 in `draft`, the
`submit` action succeeds, records `draft → submitted`, and the stored
status becomes `submitted`. -/
theorem transition_follows_table_witness :
    ∃ st2,
      TransitionRun demoStore 1 VAction.submit "alice" "submit for review" =
        (st2, .ok ⟨1, VStatus.draft, VStatus.submitted, "alice", "submit for review", 5⟩)
      ∧ findVersion st2 1 = some ⟨1, 1, "0.1.0", VStatus.submitted⟩
      ∧ st2.audits = [⟨1, VStatus.draft, VStatus.submitted, "alice", "submit for review", 5⟩] := by
  have h := transition_follows_table demoStore 1 ⟨1, 1, "0.1.0", VStatus.draft⟩
    VAction.submit "alice" "submit for review" (by decide) (by decide)
  exact h.1 VStatus.submitted (by decide)

/-- Claim C8: the single registered DELETE attachment route dispatches to
the batch handler `DeleteAttachments` and is documented as taking a
comma-separated id list; batch deletion is best-effort per id — every id of
the comma-separated request receives its own outcome (`deleted` when an
attachment with that id was stored, `notFound` otherwise), every stored
attachment whose id is requested is removed regardless of the other ids,
and there is one outcome per requested id. -/
theorem attachment_batch_delete_best_effort (store : List Attachment)
    (idstr : String) (i : String) (hi : i ∈ splitIds idstr) :
    ((openpitrixRoutes.filter fun r =>
        r.verb == Verb.DELETE && strStartsWith r.path "/attachments").map
          Route.handler = [Handler.DeleteAttachments])
    ∧ ((routesTo Handler.DeleteAttachments).map Route.doc
        = ["Delete one or multiple attachments, whose ids are separated by comma"])
    ∧ (i, if store.any (fun a => a.id == i) then DeleteOutcome.deleted
          else DeleteOutcome.notFound)
        ∈ (DeleteAttachments store (splitIds idstr)).2
    ∧ (∀ a ∈ (DeleteAttachments store (splitIds idstr)).1, a.id ≠ i)
    ∧ (DeleteAttachments store (splitIds idstr)).2.length
        = (splitIds idstr).length := by
  refine ⟨by decide, by decide, ?_, ?_, ?_⟩
  · exact List.mem_map_of_mem _ hi
  · intro a ha hai
    have ha2 : a ∈ store.filter (fun b => !((splitIds idstr).contains b.id)) := ha
    have hmem := List.mem_filter.mp ha2
    have hcon : ((splitIds idstr).contains a.id) = false := by
      simpa using hmem.2
    rw [hai] at hcon
    have htrue : List.elem i (splitIds idstr) = true := List.elem_iff.mpr hi
    rw [show (splitIds idstr).contains i = List.elem i (splitIds idstr) from rfl] at hcon
    rw [htrue] at hcon
    exact absurd hcon (by simp)
  · simp [DeleteAttachments]

/-- Concrete attachment store used by the C8 witness: attachments `a` and
`c` are stored, `b` is not. -/
def demoAttachments : List Attachment :=
  [⟨"a", [1]⟩, ⟨"c", [2]⟩]

/-- Witness for claim C8: deleting `a,b,c` against a store holding only `a`
and `c` reports `notFound` for the missing id `b`, removes the others, and
yields one outcome per requested id. -/
theorem attachment_batch_delete_best_effort_witness :
    ("b", DeleteOutcome.notFound)
        ∈ (DeleteAttachments demoAttachments (splitIds "a,b,c")).2
    ∧ (∀ a ∈ (DeleteAttachments demoAttachments (splitIds "a,b,c")).1, a.id ≠ "b")
    ∧ (DeleteAttachments demoAttachments (splitIds "a,b,c")).2.length = 3 := by
  have h := attachment_batch_delete_best_effort demoAttachments "a,b,c" "b" (by decide)
  refine ⟨?_, h.2.2.2.1, ?_⟩
  · have h3 := h.2.2.1
    have he : (demoAttachments.any fun a => a.id == "b") = false := by decide
    rw [he] at h3
    simpa using h3
  · have h5 := h.2.2.2.2
    rw [h5]
    decide
